import Mathlib

/-!
Verification development for the flood-classification raster pipeline
(`src/flood_classification/process.py`).  Raster grids, the raster
tabularizer (`raster_to_dataframe`), the feature-fusion join
(`create_final_dataframe`), the resolution/CRS reconciler
(`check_resolution_and_crs`) and the proximity stage
(`calculate_distance_to_features`) are embedded as executable Lean
definitions over exact rational arithmetic.  The external GDAL/QGIS
kernels (resampled and reprojected band values, geodesy extent
transforms, the in-range proximity distances) are abstracted as explicit
parameters because no verified property depends on the sample values
they produce; the grid geometry they are documented to produce
(target-aligned pixel snapping, copied geotransforms) is modelled
explicitly.
-/

/-- Epsilon-tolerant numeric comparison: the model of `np.isclose a b`
with the numpy default tolerances `rtol = 1e-5` and `atol = 1e-8`, namely
`|a - b| <= atol + rtol * |b|`. -/
def isClose (a b : ℚ) : Bool :=
  decide (|a - b| ≤ 1 / 100000000 + |b| / 100000)

/-- A raster grid as the pipeline sees it through QGIS/GDAL: pixel
dimensions, the extent corners (`xmin` is `extent().xMinimum()`, `ymax`
is `extent().yMaximum()`), positive pixel sizes in CRS units per pixel
(`rasterUnitsPerPixelX/Y`), the band sampler `blockValue` modelling
`QgsRasterBlock.value (row, column)`, the optional source nodata
sentinel (`sourceNoDataValue(1)`, `none` when no nodata is defined) and
the CRS authority identifier (`crs().authid()`). -/
structure RasterGrid where
  width : Nat
  height : Nat
  xmin : ℚ
  ymax : ℚ
  pxX : ℚ
  pxY : ℚ
  blockValue : Nat → Nat → ℚ
  nodata : Option ℚ
  crs : String

/-- The layer extent as the tuple
`(xMinimum, yMinimum, xMaximum, yMaximum)`. -/
def extentOf (g : RasterGrid) : ℚ × ℚ × ℚ × ℚ :=
  (g.xmin, g.ymax - (g.height : ℚ) * g.pxY, g.xmin + (g.width : ℚ) * g.pxX, g.ymax)

/-- Pixel area `pxX * pxY`, the squared-pixel-area units in which the
spec states its resolution tolerance. -/
def pixelArea (g : RasterGrid) : ℚ := g.pxX * g.pxY

/-- Geographic x coordinate of the center of pixel column `col`: the
extent corner plus half a pixel, per the data model pixel-center
mapping. -/
def pixelCenterX (g : RasterGrid) (col : Nat) : ℚ :=
  g.xmin + ((col : ℚ) + 1 / 2) * g.pxX

/-- Geographic y coordinate of the center of pixel row `row` (y
decreases as the row index grows on a north-up grid). -/
def pixelCenterY (g : RasterGrid) (row : Nat) : ℚ :=
  g.ymax - ((row : ℚ) + 1 / 2) * g.pxY

/-- One row of the tabularized record set: columns `value`, `x`, `y`.
The pandas missing marker `NaN` is modelled as `none`. -/
structure PixelRow where
  value : Option ℚ
  x : ℚ
  y : ℚ
deriving DecidableEq, Repr

/-- The tabularizer `raster_to_dataframe`.  The source flattens
`array_2d[y][x] = block.value(x, y)` row-major, so the flat record `i`
carries the sample `block.value(i % width, i / width)` (the source
passes its loop variables `(x, y)` to the `(row, column)` accessor) and
the coordinates `x = xMinimum + (i % width) * pixel_width`,
`y = yMaximum - (i // width) * pixel_height`.  When a nodata sentinel is
defined, samples matching it under `np.isclose` become `NaN` (`none`);
when none is defined the samples are left untouched. -/
def raster_to_dataframe (g : RasterGrid) : List PixelRow :=
  (List.range (g.width * g.height)).map fun i =>
    let raw := g.blockValue (i % g.width) (i / g.width)
    { value :=
        match g.nodata with
        | none => some raw
        | some nd => if isClose raw nd then none else some raw
      x := g.xmin + ((i % g.width : Nat) : ℚ) * g.pxX
      y := g.ymax - ((i / g.width : Nat) : ℚ) * g.pxY }

/-- Record `i` of the tabularized set, fully described. -/
theorem raster_to_dataframe_get (g : RasterGrid) (i : Nat)
    (hi : i < g.width * g.height) :
    (raster_to_dataframe g).get? i = some
      { value :=
          match g.nodata with
          | none => some (g.blockValue (i % g.width) (i / g.width))
          | some nd =>
              if isClose (g.blockValue (i % g.width) (i / g.width)) nd then none
              else some (g.blockValue (i % g.width) (i / g.width))
        x := g.xmin + ((i % g.width : Nat) : ℚ) * g.pxX
        y := g.ymax - ((i / g.width : Nat) : ℚ) * g.pxY } := by
  simp [raster_to_dataframe, List.get?_eq_getElem?, List.getElem?_range, hi]

/-- C6: the tabularizer emits exactly `width * height` records, record
`i` holds the coordinates of pixel `(col, row) = (i % width, i / width)`
(row-major scan order), and the `(x, y)` key is unique across the record
set. -/
theorem tabularizer_complete_unique (g : RasterGrid)
    (hx : 0 < g.pxX) (hy : 0 < g.pxY) :
    (raster_to_dataframe g).length = g.width * g.height ∧
    (∀ i, i < g.width * g.height →
      ((raster_to_dataframe g).get? i).map PixelRow.x =
        some (g.xmin + ((i % g.width : Nat) : ℚ) * g.pxX) ∧
      ((raster_to_dataframe g).get? i).map PixelRow.y =
        some (g.ymax - ((i / g.width : Nat) : ℚ) * g.pxY)) ∧
    (∀ i j ri rj, (raster_to_dataframe g).get? i = some ri →
      (raster_to_dataframe g).get? j = some rj →
      ri.x = rj.x → ri.y = rj.y → i = j) := by
  refine ⟨by simp [raster_to_dataframe], ?_, ?_⟩
  · intro i hi
    rw [raster_to_dataframe_get g i hi]
    exact ⟨rfl, rfl⟩
  · intro i j ri rj hgi hgj hxx hyy
    have hilen : i < (raster_to_dataframe g).length := (List.get?_eq_some.mp hgi).1
    have hjlen : j < (raster_to_dataframe g).length := (List.get?_eq_some.mp hgj).1
    rw [show (raster_to_dataframe g).length = g.width * g.height by
      simp [raster_to_dataframe]] at hilen hjlen
    rw [raster_to_dataframe_get g i hilen] at hgi
    rw [raster_to_dataframe_get g j hjlen] at hgj
    have hri := Option.some.inj hgi
    have hrj := Option.some.inj hgj
    have hxv : ((i % g.width : Nat) : ℚ) * g.pxX = ((j % g.width : Nat) : ℚ) * g.pxX := by
      have := hxx
      rw [← hri, ← hrj] at this
      exact add_left_cancel this
    have hyv : ((i / g.width : Nat) : ℚ) * g.pxY = ((j / g.width : Nat) : ℚ) * g.pxY := by
      have := hyy
      rw [← hri, ← hrj] at this
      exact sub_right_inj.mp this
    have hmod : i % g.width = j % g.width := by
      exact_mod_cast mul_right_cancel₀ (ne_of_gt hx) hxv
    have hdiv : i / g.width = j / g.width := by
      exact_mod_cast mul_right_cancel₀ (ne_of_gt hy) hyv
    calc i = g.width * (i / g.width) + i % g.width := (Nat.div_add_mod i g.width).symm
      _ = g.width * (j / g.width) + j % g.width := by rw [hmod, hdiv]
      _ = j := Nat.div_add_mod j g.width

/-- A small concrete 2x2 grid used as a tabularizer witness input. -/
def gridW : RasterGrid where
  width := 2
  height := 2
  xmin := 0
  ymax := 2
  pxX := 1
  pxY := 1
  blockValue := fun r c => if r = 0 ∧ c = 0 then -9999 else (r : ℚ) + 2 * (c : ℚ)
  nodata := some (-9999)
  crs := "EPSG:31983"

/-- Witness for C6 at the concrete grid `gridW`. -/
theorem tabularizer_complete_unique_witness :
    (raster_to_dataframe gridW).length = gridW.width * gridW.height :=
  (tabularizer_complete_unique gridW (by norm_num [gridW]) (by norm_num [gridW])).1

/-- A 1x1 grid with extent `[0,1] x [0,1]`, pixel size 1, no nodata. -/
def gridC : RasterGrid where
  width := 1
  height := 1
  xmin := 0
  ymax := 1
  pxX := 1
  pxY := 1
  blockValue := fun _ _ => 2
  nodata := none
  crs := "EPSG:31983"

/-- C7 evaluation: at the 1x1 grid `gridC` the tabularizer emits the
coordinates `(0, 1)` for pixel `(0, 0)` - the extent corner
`(xMinimum, yMaximum)`, i.e. the top-left pixel corner - whereas the
pixel-center coordinates of that pixel are `(1/2, 1/2)`.  The emitted
key therefore is not the pixel center the claim (and the docstring of the
function itself) describe; it is off by half a pixel in each axis. -/
theorem tabularizer_corner_not_center_eval :
    ((raster_to_dataframe gridC).get? 0).map (fun r => (r.x, r.y)) =
      some (0, 1) ∧
    (pixelCenterX gridC 0, pixelCenterY gridC 0) = (1 / 2, 1 / 2) ∧
    ¬ (((0 : ℚ), (1 : ℚ)) = ((1 / 2 : ℚ), (1 / 2 : ℚ))) := by
  refine ⟨?_, ?_, ?_⟩
  · rw [raster_to_dataframe_get gridC 0 (by norm_num [gridC])]
    simp [gridC]
  · norm_num [pixelCenterX, pixelCenterY, gridC]
  · simp only [Prod.mk.injEq]
    norm_num

/-- A 1x1 grid whose only sample is `0` and whose nodata sentinel is
also `0`. -/
def gridZero : RasterGrid where
  width := 1
  height := 1
  xmin := 0
  ymax := 1
  pxX := 1
  pxY := 1
  blockValue := fun _ _ => 0
  nodata := some 0
  crs := "EPSG:31983"

/-- The same 1x1 grid with no nodata sentinel defined. -/
def gridNone : RasterGrid where
  width := 1
  height := 1
  xmin := 0
  ymax := 1
  pxX := 1
  pxY := 1
  blockValue := fun _ _ => 0
  nodata := none
  crs := "EPSG:31983"

/-- C8: in the tabularized `value` column, when a nodata sentinel `nd`
is defined the sample is replaced by the missing marker exactly when
`np.isclose sample nd` holds (an epsilon-tolerant comparison, not exact
equality); when no nodata is defined every sample is kept unchanged; and
`isClose` is precisely the tolerance predicate
`|a - b| <= 1e-8 + |b| * 1e-5`. -/
theorem tabularizer_nodata_isclose (g : RasterGrid) (i : Nat)
    (hi : i < g.width * g.height) :
    (∀ nd, g.nodata = some nd →
      ((raster_to_dataframe g).get? i).map PixelRow.value =
        some (if isClose (g.blockValue (i % g.width) (i / g.width)) nd then none
              else some (g.blockValue (i % g.width) (i / g.width)))) ∧
    (g.nodata = none →
      ((raster_to_dataframe g).get? i).map PixelRow.value =
        some (some (g.blockValue (i % g.width) (i / g.width)))) ∧
    (∀ a b : ℚ, isClose a b = true ↔ |a - b| ≤ 1 / 100000000 + |b| / 100000) := by
  refine ⟨?_, ?_, ?_⟩
  · intro nd hnd
    rw [raster_to_dataframe_get g i hi, hnd]
    rfl
  · intro hnd
    rw [raster_to_dataframe_get g i hi, hnd]
    rfl
  · intro a b
    simp [isClose]

/-- Witness for C8: a zero sample under a zero nodata sentinel is
replaced by the missing marker, while the same raster with no nodata
defined keeps the zero sample. -/
theorem tabularizer_nodata_isclose_witness :
    ((raster_to_dataframe gridZero).get? 0).map PixelRow.value = some none ∧
    ((raster_to_dataframe gridNone).get? 0).map PixelRow.value = some (some 0) := by
  constructor
  · have h := (tabularizer_nodata_isclose gridZero 0 (by norm_num [gridZero])).1 0 rfl
    rw [h]
    have hc : isClose (gridZero.blockValue (0 % gridZero.width) (0 / gridZero.width)) 0 = true := by
      simp [isClose, gridZero]
    rw [hc]
    simp
  · have h := (tabularizer_nodata_isclose gridNone 0 (by norm_num [gridNone])).2.1 rfl
    rw [h]
    rfl

/-- One row of the fused feature table: the pixel key `(x, y)` plus the
six renamed value columns of `create_final_dataframe`; a pandas `NaN`
entry is `none`. -/
structure Row where
  x : ℚ
  y : ℚ
  dtm_value : Option ℚ
  lulc_code : Option ℚ
  flood_binary : Option ℚ
  dist_to_river : Option ℚ
  dist_to_tributaries : Option ℚ
  is_basin : Option ℚ
deriving DecidableEq, Repr

/-- A fused row carrying only its key, all value columns missing. -/
def Row.blank (a b : ℚ) : Row :=
  ⟨a, b, none, none, none, none, none, none⟩

/-- One step of `pd.merge(left, right, on=["x", "y"], how="outer")`
where `right` is a single-value-column record set and `set` stores that
column into the fused row: every left row is paired with each
key-matching right row (or with a missing value when none matches), and
right rows whose key is absent from the left contribute a fresh row that
is missing every previously merged column.  (Pandas additionally sorts
the keys of an outer merge; row order is irrelevant to every property
proved here.) -/
def mergeOuter (left : List Row) (right : List PixelRow)
    (set : Row → Option ℚ → Row) : List Row :=
  (left.flatMap fun lr =>
    if (right.filter fun r => decide (r.x = lr.x ∧ r.y = lr.y)).isEmpty then
      [set lr none]
    else
      (right.filter fun r => decide (r.x = lr.x ∧ r.y = lr.y)).map fun r =>
        set lr r.value) ++
  ((right.filter fun r => left.all fun lr => !decide (lr.x = r.x ∧ lr.y = r.y)).map
    fun r => set (Row.blank r.x r.y) r.value)

/-- The feature-fusion join `create_final_dataframe`: rename each
per-input `value` column, outer-join the six record sets on `(x, y)` in
the order of the source, fill missing `flood_binary` and `is_basin` with `0`,
then drop every row missing `dtm_value` or `lulc_code`. -/
def create_final_dataframe (dtm_df lulc_df flood_df river_df tributaries_df basin_df :
    List PixelRow) : List Row :=
  let t1 := dtm_df.map fun r => { Row.blank r.x r.y with dtm_value := r.value }
  let t2 := mergeOuter t1 lulc_df fun r v => { r with lulc_code := v }
  let t3 := mergeOuter t2 flood_df fun r v => { r with flood_binary := v }
  let t4 := mergeOuter t3 river_df fun r v => { r with dist_to_river := v }
  let t5 := mergeOuter t4 tributaries_df fun r v => { r with dist_to_tributaries := v }
  let t6 := mergeOuter t5 basin_df fun r v => { r with is_basin := v }
  let t7 := t6.map fun r =>
    { r with flood_binary := some (r.flood_binary.getD 0)
             is_basin := some (r.is_basin.getD 0) }
  t7.filter fun r => r.dtm_value.isSome && r.lulc_code.isSome

/-- Every row of an outer-merge step is a matched left row, an unmatched
left row completed with a missing value, or an unmatched right row over
a blank key row. -/
theorem mergeOuter_mem {left : List Row} {right : List PixelRow}
    {set : Row → Option ℚ → Row} {row : Row}
    (h : row ∈ mergeOuter left right set) :
    (∃ lr ∈ left, row = set lr none) ∨
    (∃ lr ∈ left, ∃ r ∈ right, row = set lr r.value) ∨
    (∃ r ∈ right, row = set (Row.blank r.x r.y) r.value) := by
  rcases List.mem_append.mp h with h1 | h2
  · rcases List.mem_flatMap.mp h1 with ⟨lr, hlr, hmem⟩
    by_cases he :
        (right.filter fun r => decide (r.x = lr.x ∧ r.y = lr.y)).isEmpty
    · rw [if_pos he] at hmem
      exact Or.inl ⟨lr, hlr, by simpa using hmem⟩
    · rw [if_neg he] at hmem
      rcases List.mem_map.mp hmem with ⟨r, hrf, hrow⟩
      exact Or.inr (Or.inl ⟨lr, hlr, r, (List.mem_filter.mp hrf).1, hrow.symm⟩)
  · rcases List.mem_map.mp h2 with ⟨r, hrf, hrow⟩
    exact Or.inr (Or.inr ⟨r, (List.mem_filter.mp hrf).1, hrow.symm⟩)

/-- A column predicate survives an outer-merge step that does not write
that column, provided it holds of the missing marker (which new
right-only rows carry). -/
theorem mergeOuter_prop_preserved (P : Option ℚ → Prop) (f : Row → Option ℚ)
    (left : List Row) (right : List PixelRow) (set : Row → Option ℚ → Row)
    (hset : ∀ lr v, f (set lr v) = f lr)
    (hblank : ∀ a b : ℚ, f (Row.blank a b) = none)
    (hnone : P none)
    (hleft : ∀ lr ∈ left, P (f lr)) :
    ∀ row ∈ mergeOuter left right set, P (f row) := by
  intro row hrow
  rcases mergeOuter_mem hrow with ⟨lr, hlr, rfl⟩ | ⟨lr, hlr, r, hr, rfl⟩ | ⟨r, hr, rfl⟩
  · rw [hset]; exact hleft lr hlr
  · rw [hset]; exact hleft lr hlr
  · rw [hset, hblank]; exact hnone

/-- A column predicate holds after the outer-merge step that writes that
column, provided it holds of the missing marker and of every right
value. -/
theorem mergeOuter_prop_set (P : Option ℚ → Prop) (f : Row → Option ℚ)
    (left : List Row) (right : List PixelRow) (set : Row → Option ℚ → Row)
    (hset : ∀ lr v, f (set lr v) = v)
    (hnone : P none)
    (hright : ∀ r ∈ right, P r.value) :
    ∀ row ∈ mergeOuter left right set, P (f row) := by
  intro row hrow
  rcases mergeOuter_mem hrow with ⟨lr, hlr, rfl⟩ | ⟨lr, hlr, r, hr, rfl⟩ | ⟨r, hr, rfl⟩
  · rw [hset]; exact hnone
  · rw [hset]; exact hright r hr
  · rw [hset]; exact hright r hr

/-- C4: in the fused table the presence-indicator columns are never a
missing marker - whatever the outer joins left missing is filled with
`0` - and since the flood and basin record sets carry only `{0, 1}` or
missing values (they tabularize binary presence rasters), both columns
are always `0` or `1`. -/
theorem fusion_fill_flood_basin (dtm_df lulc_df flood_df river_df tributaries_df basin_df :
    List PixelRow)
    (hf : ∀ r ∈ flood_df, r.value = none ∨ r.value = some 0 ∨ r.value = some 1)
    (hb : ∀ r ∈ basin_df, r.value = none ∨ r.value = some 0 ∨ r.value = some 1) :
    ∀ row ∈ create_final_dataframe dtm_df lulc_df flood_df river_df tributaries_df basin_df,
      (row.flood_binary = some 0 ∨ row.flood_binary = some 1) ∧
      (row.is_basin = some 0 ∨ row.is_basin = some 1) := by
  intro row hrow
  simp only [create_final_dataframe] at hrow
  have h7 := (List.mem_filter.mp hrow).1
  rcases List.mem_map.mp h7 with ⟨r6, hr6, rfl⟩
  have hfl : r6.flood_binary = none ∨ r6.flood_binary = some 0 ∨ r6.flood_binary = some 1 := by
    refine mergeOuter_prop_preserved (fun v => v = none ∨ v = some 0 ∨ v = some 1)
      Row.flood_binary _ basin_df (fun r v => { r with is_basin := v })
      (fun lr v => rfl) (fun a b => rfl) (Or.inl rfl) ?_ r6 hr6
    refine mergeOuter_prop_preserved (fun v => v = none ∨ v = some 0 ∨ v = some 1)
      Row.flood_binary _ tributaries_df (fun r v => { r with dist_to_tributaries := v })
      (fun lr v => rfl) (fun a b => rfl) (Or.inl rfl) ?_
    refine mergeOuter_prop_preserved (fun v => v = none ∨ v = some 0 ∨ v = some 1)
      Row.flood_binary _ river_df (fun r v => { r with dist_to_river := v })
      (fun lr v => rfl) (fun a b => rfl) (Or.inl rfl) ?_
    exact mergeOuter_prop_set (fun v => v = none ∨ v = some 0 ∨ v = some 1)
      Row.flood_binary _ flood_df (fun r v => { r with flood_binary := v })
      (fun lr v => rfl) (Or.inl rfl) hf
  have hba : r6.is_basin = none ∨ r6.is_basin = some 0 ∨ r6.is_basin = some 1 :=
    mergeOuter_prop_set (fun v => v = none ∨ v = some 0 ∨ v = some 1)
      Row.is_basin _ basin_df (fun r v => { r with is_basin := v })
      (fun lr v => rfl) (Or.inl rfl) hb r6 hr6
  constructor
  · rcases hfl with h | h | h <;> simp [h]
  · rcases hba with h | h | h <;> simp [h]

/-- C5: the fused table never contains a row missing `dtm_value` or
missing `lulc_code`; such rows are dropped by the final filter. -/
theorem fusion_drop_missing_core (dtm_df lulc_df flood_df river_df tributaries_df basin_df :
    List PixelRow) :
    ∀ row ∈ create_final_dataframe dtm_df lulc_df flood_df river_df tributaries_df basin_df,
      row.dtm_value.isSome = true ∧ row.lulc_code.isSome = true := by
  intro row hrow
  simp only [create_final_dataframe] at hrow
  have h := (List.mem_filter.mp hrow).2
  simpa using h

/-- Concrete terrain record set: one pixel at `(0, 0)` with value `3`. -/
def dfDtmW : List PixelRow := [⟨some 3, 0, 0⟩]

/-- Concrete land-cover record set: the same pixel with code `7`. -/
def dfLulcW : List PixelRow := [⟨some 7, 0, 0⟩]

/-- Concrete flood-presence record set: the same pixel marked `1`. -/
def dfFloodW : List PixelRow := [⟨some 1, 0, 0⟩]

/-- The single fused row produced from the witness record sets. -/
def rowW : Row := ⟨0, 0, some 3, some 7, some 1, none, none, some 0⟩

/-- Evaluation of the fusion join on the witness record sets. -/
theorem create_final_dataframe_witness_eval :
    create_final_dataframe dfDtmW dfLulcW dfFloodW [] [] [] = [rowW] := by
  simp [create_final_dataframe, mergeOuter, Row.blank, dfDtmW, dfLulcW, dfFloodW, rowW]

/-- Witness for C4 at the concrete record sets. -/
theorem fusion_fill_flood_basin_witness :
    (rowW.flood_binary = some 0 ∨ rowW.flood_binary = some 1) ∧
    (rowW.is_basin = some 0 ∨ rowW.is_basin = some 1) := by
  refine fusion_fill_flood_basin dfDtmW dfLulcW dfFloodW [] [] [] ?_ ?_ rowW ?_
  · intro r hr
    simp only [dfFloodW, List.mem_singleton] at hr
    subst hr
    right; right; rfl
  · intro r hr
    exact absurd hr (List.not_mem_nil r)
  · rw [create_final_dataframe_witness_eval]
    exact List.mem_singleton_self rowW

/-- Witness for C5 at the concrete record sets. -/
theorem fusion_drop_missing_core_witness :
    rowW.dtm_value.isSome = true ∧ rowW.lulc_code.isSome = true := by
  refine fusion_drop_missing_core dfDtmW dfLulcW dfFloodW [] [] [] rowW ?_
  rw [create_final_dataframe_witness_eval]
  exact List.mem_singleton_self rowW

/-- The lower target-aligned-pixels snap: `floor (v / res) * res`, the
largest multiple of `res` not exceeding `v` (GDAL warp
`targetAlignedPixels`). -/
def tapFloor (res v : ℚ) : ℚ :=
  ((⌊v / res⌋ : ℤ) : ℚ) * res

/-- The upper target-aligned-pixels snap: `ceil (v / res) * res`. -/
def tapCeil (res v : ℚ) : ℚ :=
  ((⌈v / res⌉ : ℤ) : ℚ) * res

/-- The record of one `gdal.Warp` invocation with the option values the
source passes (srcSRS and output bounds are `none` when the call does
not set them). -/
structure WarpCall where
  dstPath : String
  srcPath : String
  xRes : Option ℚ
  yRes : Option ℚ
  targetAlignedPixels : Bool
  srcSRS : Option String
  dstSRS : String
  resampleAlg : String
  srcNodata : Option ℚ
  dstNodata : Option ℚ
  outputBounds : Option (ℚ × ℚ × ℚ × ℚ)
deriving DecidableEq, Repr

/-- The external GDAL engine, abstracted: `reprojectGeom` is the
geodesy primitive producing the geometry and band of a grid reprojected
into a destination CRS (the warp model overrides the CRS tag and the
nodata sentinel it is instructed to write); `resampleBand` produces the
band values of a resampled grid for a given resolution and resampling
algorithm.  No claim depends on the values these produce, so theorems
quantify over the engine. -/
structure GdalEngine where
  reprojectGeom : RasterGrid → String → RasterGrid
  resampleBand : RasterGrid → ℚ → String → Nat → Nat → ℚ

/-- Model of the reprojection `gdal.Warp` call (no resolution, no
alignment, no bounds): geometry and band from the engine, CRS tag set to
`dstSRS`, output nodata set to the `dstNodata` option. -/
def warpReproject (E : GdalEngine) (g : RasterGrid) (dstSRS : String)
    (dstNd : Option ℚ) : RasterGrid :=
  { E.reprojectGeom g dstSRS with crs := dstSRS, nodata := dstNd }

/-- Model of a resampling `gdal.Warp` call with `xRes = yRes = res` and
`targetAlignedPixels = True` over explicit output bounds
`(bxmin, bymin, bxmax, bymax)`: the output extent is the bounds snapped
outward to multiples of `res`, the pixel size is `res` in both axes, and
the band comes from the resampling kernel of the engine. -/
def warpResampleTap (E : GdalEngine) (g : RasterGrid) (res : ℚ)
    (dstSRS alg : String) (bounds : ℚ × ℚ × ℚ × ℚ) : RasterGrid where
  width := (⌈bounds.2.2.1 / res⌉ - ⌊bounds.1 / res⌋).toNat
  height := (⌈bounds.2.2.2 / res⌉ - ⌊bounds.2.1 / res⌋).toNat
  xmin := tapFloor res bounds.1
  ymax := tapCeil res bounds.2.2.2
  pxX := res
  pxY := res
  blockValue := E.resampleBand g res alg
  nodata := g.nodata
  crs := dstSRS

/-- The reconciler `check_resolution_and_crs`.  Step 1: when the two CRS
identifiers differ, reproject the second raster into the CRS of the first
(bilinear, `srcNodata` from raster2, `dstNodata` from raster1) and
reload it; the source raises nothing on this path (its docstring
promises a `ValueError` that the body never raises).  Step 2:
unconditionally resample both rasters to the target resolution with
target-aligned pixels, raster1 with `"bilinear"` over its own extent and
raster2 with `"near"` over its own (possibly reprojected) extent, and
reload both.  The returned value pairs the two output grids with the
trace of all `gdal.Warp` calls made. -/
def check_resolution_and_crs (E : GdalEngine) (raster1 raster2 : RasterGrid)
    (path_raster1 path_raster2 resampled_path1 resampled_path2 : String)
    (target_resolution : ℚ) : (RasterGrid × RasterGrid) × List WarpCall :=
  let crs1 := raster1.crs
  let crs2 := raster2.crs
  let step1 : RasterGrid × String × List WarpCall :=
    if crs1 = crs2 then
      (raster2, path_raster2, [])
    else
      (warpReproject E raster2 crs1 raster1.nodata,
       "temp/reprojected_lulc_temp.tif",
       [{ dstPath := "temp/reprojected_lulc_temp.tif"
          srcPath := path_raster2
          xRes := none
          yRes := none
          targetAlignedPixels := false
          srcSRS := some crs2
          dstSRS := crs1
          resampleAlg := "bilinear"
          srcNodata := raster2.nodata
          dstNodata := raster1.nodata
          outputBounds := none }])
  let raster2b := step1.1
  let call1 : WarpCall :=
    { dstPath := resampled_path1
      srcPath := path_raster1
      xRes := some target_resolution
      yRes := some target_resolution
      targetAlignedPixels := true
      srcSRS := none
      dstSRS := raster1.crs
      resampleAlg := "bilinear"
      srcNodata := none
      dstNodata := none
      outputBounds := some (extentOf raster1) }
  let call2 : WarpCall :=
    { dstPath := resampled_path2
      srcPath := step1.2.1
      xRes := some target_resolution
      yRes := some target_resolution
      targetAlignedPixels := true
      srcSRS := none
      dstSRS := raster2b.crs
      resampleAlg := "near"
      srcNodata := none
      dstNodata := none
      outputBounds := some (extentOf raster2b) }
  let out1 := warpResampleTap E raster1 target_resolution raster1.crs "bilinear"
    (extentOf raster1)
  let out2 := warpResampleTap E raster2b target_resolution raster2b.crs "near"
    (extentOf raster2b)
  ((out1, out2), step1.2.2 ++ [call1, call2])

/-- C1: the two grids returned by the reconciler are congruent for every
engine, every pair of input grids and every target resolution: they
carry the same CRS identifier, their pixel width and height both equal
the target resolution, and their x and y origins differ by integer
multiples of the pixel size (both origins are snapped to multiples of
the target resolution). -/
theorem reconciler_outputs_congruent (E : GdalEngine) (r1 r2 : RasterGrid)
    (p1 p2 q1 q2 : String) (t : ℚ) :
    ((check_resolution_and_crs E r1 r2 p1 p2 q1 q2 t).1.1).crs =
      ((check_resolution_and_crs E r1 r2 p1 p2 q1 q2 t).1.2).crs ∧
    ((check_resolution_and_crs E r1 r2 p1 p2 q1 q2 t).1.1).pxX = t ∧
    ((check_resolution_and_crs E r1 r2 p1 p2 q1 q2 t).1.1).pxY = t ∧
    ((check_resolution_and_crs E r1 r2 p1 p2 q1 q2 t).1.2).pxX = t ∧
    ((check_resolution_and_crs E r1 r2 p1 p2 q1 q2 t).1.2).pxY = t ∧
    (∃ k : ℤ, ((check_resolution_and_crs E r1 r2 p1 p2 q1 q2 t).1.1).xmin -
      ((check_resolution_and_crs E r1 r2 p1 p2 q1 q2 t).1.2).xmin = (k : ℚ) * t) ∧
    (∃ k : ℤ, ((check_resolution_and_crs E r1 r2 p1 p2 q1 q2 t).1.1).ymax -
      ((check_resolution_and_crs E r1 r2 p1 p2 q1 q2 t).1.2).ymax = (k : ℚ) * t) := by
  have e1 : (check_resolution_and_crs E r1 r2 p1 p2 q1 q2 t).1.1 =
      warpResampleTap E r1 t r1.crs "bilinear" (extentOf r1) := rfl
  by_cases h : r1.crs = r2.crs
  · have e2 : (check_resolution_and_crs E r1 r2 p1 p2 q1 q2 t).1.2 =
        warpResampleTap E r2 t r2.crs "near" (extentOf r2) := by
      simp only [check_resolution_and_crs, if_pos h]
    rw [e1, e2]
    refine ⟨h, rfl, rfl, rfl, rfl,
      ⟨⌊(extentOf r1).1 / t⌋ - ⌊(extentOf r2).1 / t⌋, ?_⟩,
      ⟨⌈(extentOf r1).2.2.2 / t⌉ - ⌈(extentOf r2).2.2.2 / t⌉, ?_⟩⟩
    · show tapFloor t (extentOf r1).1 - tapFloor t (extentOf r2).1 = _
      rw [tapFloor, tapFloor]
      push_cast
      ring
    · show tapCeil t (extentOf r1).2.2.2 - tapCeil t (extentOf r2).2.2.2 = _
      rw [tapCeil, tapCeil]
      push_cast
      ring
  · have e2 : (check_resolution_and_crs E r1 r2 p1 p2 q1 q2 t).1.2 =
        warpResampleTap E (warpReproject E r2 r1.crs r1.nodata) t
          (warpReproject E r2 r1.crs r1.nodata).crs "near"
          (extentOf (warpReproject E r2 r1.crs r1.nodata)) := by
      simp only [check_resolution_and_crs, if_neg h]
    rw [e1, e2]
    refine ⟨?_, rfl, rfl, rfl, rfl,
      ⟨⌊(extentOf r1).1 / t⌋ -
        ⌊(extentOf (warpReproject E r2 r1.crs r1.nodata)).1 / t⌋, ?_⟩,
      ⟨⌈(extentOf r1).2.2.2 / t⌉ -
        ⌈(extentOf (warpReproject E r2 r1.crs r1.nodata)).2.2.2 / t⌉, ?_⟩⟩
    · rfl
    · show tapFloor t (extentOf r1).1 -
        tapFloor t (extentOf (warpReproject E r2 r1.crs r1.nodata)).1 = _
      rw [tapFloor, tapFloor]
      push_cast
      ring
    · show tapCeil t (extentOf r1).2.2.2 -
        tapCeil t (extentOf (warpReproject E r2 r1.crs r1.nodata)).2.2.2 = _
      rw [tapCeil, tapCeil]
      push_cast
      ring

/-- C2: when the two input CRS identifiers differ the reconciler does
not abort: it performs a reprojection warp of the second raster into the
CRS of the first raster with bilinear resampling, with the source nodata
sentinel taken from raster2 and the destination nodata sentinel taken
from raster1, then continues with the two resampling warps (three warp
calls in total) and returns two grids both tagged with the first
CRS of the first raster.  The embedded function is total: no
ConfigurationError/ValueError path exists (the source docstring promises
one, the body never raises). -/
theorem crs_mismatch_tolerant_reproject (E : GdalEngine) (r1 r2 : RasterGrid)
    (p1 p2 q1 q2 : String) (t : ℚ) (h : r1.crs ≠ r2.crs) :
    ∃ c : WarpCall,
      ((check_resolution_and_crs E r1 r2 p1 p2 q1 q2 t).2).head? = some c ∧
      c.resampleAlg = "bilinear" ∧
      c.srcNodata = r2.nodata ∧
      c.dstNodata = r1.nodata ∧
      c.srcSRS = some r2.crs ∧
      c.dstSRS = r1.crs ∧
      ((check_resolution_and_crs E r1 r2 p1 p2 q1 q2 t).2).length = 3 ∧
      ((check_resolution_and_crs E r1 r2 p1 p2 q1 q2 t).1.1).crs = r1.crs ∧
      ((check_resolution_and_crs E r1 r2 p1 p2 q1 q2 t).1.2).crs = r1.crs := by
  refine ⟨{ dstPath := "temp/reprojected_lulc_temp.tif"
            srcPath := p2
            xRes := none
            yRes := none
            targetAlignedPixels := false
            srcSRS := some r2.crs
            dstSRS := r1.crs
            resampleAlg := "bilinear"
            srcNodata := r2.nodata
            dstNodata := r1.nodata
            outputBounds := none }, ?_, rfl, rfl, rfl, rfl, rfl, ?_, rfl, ?_⟩
  · simp only [check_resolution_and_crs, if_neg h]
    rfl
  · simp only [check_resolution_and_crs, if_neg h]
    rfl
  · simp only [check_resolution_and_crs, if_neg h]
    rfl

/-- A trivial concrete GDAL engine for witnesses: reprojection keeps the
geometry, resampling produces zero samples. -/
def engine0 : GdalEngine where
  reprojectGeom := fun g _ => g
  resampleBand := fun _ _ _ _ _ => 0

/-- A 1x1 grid like `gridC` but tagged with a different CRS. -/
def gridD : RasterGrid where
  width := 1
  height := 1
  xmin := 0
  ymax := 1
  pxX := 1
  pxY := 1
  blockValue := fun _ _ => 5
  nodata := some (-9999)
  crs := "EPSG:4326"

/-- Witness for C2 at concrete grids with different CRS identifiers. -/
theorem crs_mismatch_tolerant_reproject_witness :
    ∃ c : WarpCall,
      ((check_resolution_and_crs engine0 gridC gridD "d" "l" "rd" "rl" 1).2).head? = some c ∧
      c.resampleAlg = "bilinear" ∧
      c.srcNodata = gridD.nodata ∧
      c.dstNodata = gridC.nodata ∧
      c.srcSRS = some gridD.crs ∧
      c.dstSRS = gridC.crs ∧
      ((check_resolution_and_crs engine0 gridC gridD "d" "l" "rd" "rl" 1).2).length = 3 ∧
      ((check_resolution_and_crs engine0 gridC gridD "d" "l" "rd" "rl" 1).1.1).crs = gridC.crs ∧
      ((check_resolution_and_crs engine0 gridC gridD "d" "l" "rd" "rl" 1).1.2).crs = gridC.crs :=
  crs_mismatch_tolerant_reproject engine0 gridC gridD "d" "l" "rd" "rl" 1 (by decide)

/-- A 1x1 grid whose extent corner `1/2` is not aligned to the pixel
grid of resolution 1. -/
def gridHalf : RasterGrid where
  width := 1
  height := 1
  xmin := 1 / 2
  ymax := 1
  pxX := 1
  pxY := 1
  blockValue := fun _ _ => 0
  nodata := none
  crs := "EPSG:31983"

/-- C3 counterexample: both inputs are the same grid, so the two input
resolutions agree exactly (pixel-area difference 0 <= 1e-6), yet the
reconciler still resamples - the first returned grid has origin 0, not
the input origin 1/2, so the inputs are not returned unchanged. -/
theorem reconciler_matching_resolution_cex :
    |pixelArea gridHalf - pixelArea gridHalf| ≤ 1 / 1000000 ∧
    ((check_resolution_and_crs engine0 gridHalf gridHalf "d" "l" "rd" "rl" 1).1.1).xmin ≠
      gridHalf.xmin := by
  constructor
  · norm_num
  · have e : ((check_resolution_and_crs engine0 gridHalf gridHalf "d" "l" "rd" "rl" 1).1.1).xmin =
        tapFloor 1 (1 / 2) := rfl
    rw [e, tapFloor]
    show ((⌊(1 : ℚ) / 2 / 1⌋ : ℤ) : ℚ) * 1 ≠ 1 / 2
    norm_num

/-- C3 amended: the reconciler takes a mandatory target resolution and
resamples both rasters to it unconditionally - even when the two input
resolutions already agree within 1e-6 in pixel-area units, the trace
still ends with the two target-aligned resampling warps at the target
resolution and both returned grids have pixel size equal to the target;
there is no mode that returns the inputs unchanged. -/
theorem reconciler_always_resamples (E : GdalEngine) (r1 r2 : RasterGrid)
    (p1 p2 q1 q2 : String) (t : ℚ)
    (_hres : |pixelArea r1 - pixelArea r2| ≤ 1 / 1000000) :
    ∃ pre c1 c2, (check_resolution_and_crs E r1 r2 p1 p2 q1 q2 t).2 = pre ++ [c1, c2] ∧
      c1.xRes = some t ∧ c1.yRes = some t ∧ c1.targetAlignedPixels = true ∧
      c2.xRes = some t ∧ c2.yRes = some t ∧ c2.targetAlignedPixels = true ∧
      ((check_resolution_and_crs E r1 r2 p1 p2 q1 q2 t).1.1).pxX = t ∧
      ((check_resolution_and_crs E r1 r2 p1 p2 q1 q2 t).1.2).pxX = t := by
  by_cases h : r1.crs = r2.crs
  · refine ⟨[],
      { dstPath := q1, srcPath := p1, xRes := some t, yRes := some t,
        targetAlignedPixels := true, srcSRS := none, dstSRS := r1.crs,
        resampleAlg := "bilinear", srcNodata := none, dstNodata := none,
        outputBounds := some (extentOf r1) },
      { dstPath := q2, srcPath := p2, xRes := some t, yRes := some t,
        targetAlignedPixels := true, srcSRS := none, dstSRS := r2.crs,
        resampleAlg := "near", srcNodata := none, dstNodata := none,
        outputBounds := some (extentOf r2) }, ?_, rfl, rfl, rfl, rfl, rfl, rfl, rfl, rfl⟩
    simp only [check_resolution_and_crs, if_pos h]
  · refine ⟨[({ dstPath := "temp/reprojected_lulc_temp.tif", srcPath := p2,
                xRes := none, yRes := none, targetAlignedPixels := false,
                srcSRS := some r2.crs, dstSRS := r1.crs, resampleAlg := "bilinear",
                srcNodata := r2.nodata, dstNodata := r1.nodata,
                outputBounds := none } : WarpCall)],
      { dstPath := q1, srcPath := p1, xRes := some t, yRes := some t,
        targetAlignedPixels := true, srcSRS := none, dstSRS := r1.crs,
        resampleAlg := "bilinear", srcNodata := none, dstNodata := none,
        outputBounds := some (extentOf r1) },
      { dstPath := q2, srcPath := "temp/reprojected_lulc_temp.tif",
        xRes := some t, yRes := some t,
        targetAlignedPixels := true, srcSRS := none, dstSRS := r1.crs,
        resampleAlg := "near", srcNodata := none, dstNodata := none,
        outputBounds := some (extentOf (warpReproject E r2 r1.crs r1.nodata)) },
      ?_, rfl, rfl, rfl, rfl, rfl, rfl, rfl, rfl⟩
    simp only [check_resolution_and_crs, if_neg h]
    rfl

/-- Witness for the amended C3 at a concrete input whose two resolutions
agree exactly. -/
theorem reconciler_always_resamples_witness :
    ∃ pre c1 c2,
      (check_resolution_and_crs engine0 gridHalf gridHalf "d" "l" "rd" "rl" 1).2 =
        pre ++ [c1, c2] ∧
      c1.xRes = some 1 ∧ c1.yRes = some 1 ∧ c1.targetAlignedPixels = true ∧
      c2.xRes = some 1 ∧ c2.yRes = some 1 ∧ c2.targetAlignedPixels = true ∧
      ((check_resolution_and_crs engine0 gridHalf gridHalf "d" "l" "rd" "rl" 1).1.1).pxX = 1 ∧
      ((check_resolution_and_crs engine0 gridHalf gridHalf "d" "l" "rd" "rl" 1).1.2).pxX = 1 :=
  reconciler_always_resamples engine0 gridHalf gridHalf "d" "l" "rd" "rl" 1 (by norm_num)

/-- A vector layer as the pipeline sees it: a display name, the path of
its geometric source, and the geometric coverage test `covers x y`
deciding whether a geometry of the layer covers the geographic point
`(x, y)` (the burn-in predicate applied at pixel centers; its geometry
internals live in the external GIS engine). -/
structure VectorLayer where
  name : String
  source : String
  covers : ℚ → ℚ → Bool

/-- The fixed nodata sentinel of the proximity stage. -/
def NODATA_VALUE : ℚ := -9999

/-- Model of the `gdal.Rasterize` call of the proximity stage: the
output grid is snapped outward (`targetAlignedPixels`) from the
extent of the reference raster at the requested resolution, tagged with the
reference CRS, nodata `0`, and each pixel holds `1` where the vector
layer covers the pixel center and `0` elsewhere. -/
def rasterizeVector (vl : VectorLayer) (ref : RasterGrid) (res : ℚ) : RasterGrid where
  width := (⌈(extentOf ref).2.2.1 / res⌉ - ⌊(extentOf ref).1 / res⌋).toNat
  height := (⌈(extentOf ref).2.2.2 / res⌉ - ⌊(extentOf ref).2.1 / res⌋).toNat
  xmin := tapFloor res (extentOf ref).1
  ymax := tapCeil res (extentOf ref).2.2.2
  pxX := res
  pxY := res
  blockValue := fun row col =>
    if vl.covers (tapFloor res (extentOf ref).1 + ((col : ℚ) + 1 / 2) * res)
        (tapCeil res (extentOf ref).2.2.2 - ((row : ℚ) + 1 / 2) * res) then 1 else 0
  nodata := some 0
  crs := ref.crs

/-- Whether some pixel of `g` with a non-zero sample (a proximity
target) lies within geographic distance `maxdist` of pixel
`(row, col)`, compared on squared Euclidean distances in CRS units. -/
def hasFeatureWithin (g : RasterGrid) (maxdist : ℚ) (row col : Nat) : Bool :=
  (List.range g.height).any fun r =>
    (List.range g.width).any fun c =>
      decide (g.blockValue r c ≠ 0) &&
      decide ((((c : ℚ) - (col : ℚ)) * g.pxX) ^ 2 +
        (((r : ℚ) - (row : ℚ)) * g.pxY) ^ 2 ≤ maxdist ^ 2)

/-- Model of `gdal.ComputeProximity` with options
`DISTUNITS=GEO, MAXDIST=1000000, NODATA=-9999` writing into a freshly
created output dataset that copies the projection, geotransform
and dimensions of the input: pixels with a target within `maxdist` receive the
geographic distance value of the engine (abstracted as the parameter `dist`,
since no property verified here depends on it), all others receive the
nodata sentinel. -/
def computeProximity (pres : RasterGrid) (dist : Nat → Nat → ℚ)
    (maxdist nd : ℚ) : RasterGrid :=
  { pres with
    nodata := some nd
    blockValue := fun row col =>
      if hasFeatureWithin pres maxdist row col then dist row col else nd }

/-- One observable GDAL dataset operation of the proximity stage. -/
inductive GdalEvent where
  | rasterizeTo (path : String)
  | openRead (path : String)
  | createFile (path : String)
  | closeFile (path : String)
deriving DecidableEq, Repr

/-- The proximity stage `calculate_distance_to_features`: rasterize the
vector layer into an intermediate presence raster at the constant path
`temp/empty_raster.tif`, open it, create the output dataset at
`output_path` with the dimensions, projection and geotransform of the input,
set nodata `-9999.0`, run the proximity computation, then release both
datasets (the final two `closeFile` events) before returning the new
grid.  The second component is the ordered trace of dataset operations
performed before the function returns. -/
def calculate_distance_to_features (dist : Nat → Nat → ℚ) (vl : VectorLayer)
    (ref : RasterGrid) (output_path : String) (target_resolution : ℚ) :
    RasterGrid × List GdalEvent :=
  let empty_raster_path := "temp/empty_raster.tif"
  let presence := rasterizeVector vl ref target_resolution
  let out := computeProximity presence dist 1000000 NODATA_VALUE
  (out,
   [GdalEvent.rasterizeTo empty_raster_path,
    GdalEvent.openRead empty_raster_path,
    GdalEvent.createFile output_path,
    GdalEvent.closeFile empty_raster_path,
    GdalEvent.closeFile output_path])

/-- C9: for every engine distance kernel, vector layer, reference grid,
output path and resolution, the output grid of the proximity stage shares the
dimensions, geotransform (origin and pixel sizes) and CRS of the
intermediate presence grid; its nodata sentinel is the fixed `-9999.0`;
every pixel with no proximity target within the maximum search distance
(1000000 geographic units) holds `-9999`; and the trace releases both
datasets - the intermediate raster and the output raster - as its final
events before the grid handle is returned. -/
theorem proximity_grid_nodata_release (dist : Nat → Nat → ℚ) (vl : VectorLayer)
    (ref : RasterGrid) (output_path : String) (res : ℚ) :
    ((calculate_distance_to_features dist vl ref output_path res).1).width =
      (rasterizeVector vl ref res).width ∧
    ((calculate_distance_to_features dist vl ref output_path res).1).height =
      (rasterizeVector vl ref res).height ∧
    ((calculate_distance_to_features dist vl ref output_path res).1).xmin =
      (rasterizeVector vl ref res).xmin ∧
    ((calculate_distance_to_features dist vl ref output_path res).1).ymax =
      (rasterizeVector vl ref res).ymax ∧
    ((calculate_distance_to_features dist vl ref output_path res).1).pxX =
      (rasterizeVector vl ref res).pxX ∧
    ((calculate_distance_to_features dist vl ref output_path res).1).pxY =
      (rasterizeVector vl ref res).pxY ∧
    ((calculate_distance_to_features dist vl ref output_path res).1).crs =
      (rasterizeVector vl ref res).crs ∧
    ((calculate_distance_to_features dist vl ref output_path res).1).nodata =
      some (-9999) ∧
    (∀ row col, hasFeatureWithin (rasterizeVector vl ref res) 1000000 row col = false →
      ((calculate_distance_to_features dist vl ref output_path res).1).blockValue row col =
        -9999) ∧
    (calculate_distance_to_features dist vl ref output_path res).2 =
      [GdalEvent.rasterizeTo "temp/empty_raster.tif",
       GdalEvent.openRead "temp/empty_raster.tif",
       GdalEvent.createFile output_path,
       GdalEvent.closeFile "temp/empty_raster.tif",
       GdalEvent.closeFile output_path] := by
  refine ⟨rfl, rfl, rfl, rfl, rfl, rfl, rfl, rfl, ?_, rfl⟩
  intro row col hno
  show (if hasFeatureWithin (rasterizeVector vl ref res) 1000000 row col
    then dist row col else NODATA_VALUE) = -9999
  rw [hno]
  rfl

/-- An empty vector layer used as a proximity witness input: its
coverage test never holds, so the presence raster is all zero. -/
def vectorW : VectorLayer where
  name := "river_layer"
  source := "data/river.shp"
  covers := fun _ _ => false

/-- Witness for C9: with an empty vector layer over the 1x1 reference
grid, pixel `(0, 0)` has no proximity target within the bound and so
receives the nodata sentinel `-9999`. -/
theorem proximity_grid_nodata_release_witness :
    ((calculate_distance_to_features (fun _ _ => 0) vectorW gridC "temp/river_dist.tif" 1).1).blockValue 0 0 = -9999 := by
  have h := (proximity_grid_nodata_release (fun _ _ => 0) vectorW gridC
    "temp/river_dist.tif" 1).2.2.2.2.2.2.2.2.1
  refine h 0 0 ?_
  simp [hasFeatureWithin, rasterizeVector, vectorW]

/-- The path of the intermediate presence raster written by one call of
the proximity stage (the target of its `gdal.Rasterize` event). -/
def intermediateRasterPath (dist : Nat → Nat → ℚ) (vl : VectorLayer)
    (ref : RasterGrid) (output_path : String) (res : ℚ) : String :=
  match (calculate_distance_to_features dist vl ref output_path res).2 with
  | GdalEvent.rasterizeTo p :: _ => p
  | _ => ""

/-- C10: the intermediate presence raster of the proximity stage is
always written to the single constant path `temp/empty_raster.tif`,
whatever the vector layer, reference grid, output path or resolution;
hence any two calls - such as the river call writing to
`temp/river_dist.tif` and the tributaries call writing to
`temp/tributaries_dist.tif` in `main` - use and overwrite the same
intermediate file. -/
theorem proximity_temp_path_constant (d1 : Nat → Nat → ℚ) (vl1 : VectorLayer)
    (ref1 : RasterGrid) (p1 : String) (r1 : ℚ) (d2 : Nat → Nat → ℚ)
    (vl2 : VectorLayer) (ref2 : RasterGrid) (p2 : String) (r2 : ℚ) :
    intermediateRasterPath d1 vl1 ref1 p1 r1 = "temp/empty_raster.tif" ∧
    intermediateRasterPath d1 vl1 ref1 p1 r1 = intermediateRasterPath d2 vl2 ref2 p2 r2 :=
  ⟨rfl, rfl⟩
